import Mathlib

/-!
Shallow embedding of `src/rapid_response_system.py` (rapid-response-agent-system).

Conventions of the embedding:
* Python `datetime` / `time.time()` values are modelled as `Int` seconds; every
  call of `datetime.now()` or `time.time()` in the source becomes an explicit
  `Int` parameter of the embedded function, in source order.
* The external Gemini scoring collaborator is modelled by an `Option Int`
  parameter per call site: `some n` means the call succeeded and the leading
  integer parsed from its reply was `n`; `none` means any transport or parse
  failure (the `except` path of the source).
* Python strings are Lean `String`s; case-insensitive substring search is
  embedded on the character lists.
* Mutable object state is threaded explicitly: the scorer's
  `decision_history` list is passed in and the updated list returned, and the
  `Issue` object is returned alongside the score so that absence of mutation
  is a provable statement rather than a modelling artifact.
-/

/-- Field-for-field image of the Python `Issue` object right after `__init__`
(`mai_score` starts as `None`, `status` as `"detected"`). -/
structure MAIScore where
  mission_alignment : Int
  impact_growth : Int
  risk_evaluation : Int
  total_score : Int
deriving Repr, DecidableEq

/-- `MAIScore.__init__`: stores the three sub-scores and caches
`total_score = mission_alignment + impact_growth + risk_evaluation`. -/
def MAIScore.make (mission_alignment impact_growth risk_evaluation : Int) : MAIScore :=
  ⟨mission_alignment, impact_growth, risk_evaluation,
    mission_alignment + impact_growth + risk_evaluation⟩

/-- `MAIScore.get_recommendation`. -/
def MAIScore.get_recommendation (s : MAIScore) : String :=
  if 30 ≤ s.total_score then "TIER_2_HUMAN_REVIEW"
  else if 15 ≤ s.total_score then "ENHANCED_MONITORING"
  else "DOCUMENTATION_ONLY"

/-- The Python `Issue` object: `id` is `f"issue_{int(time.time())}"`,
`timestamp` is `datetime.now()`, `mai_score` starts `None` and `status`
starts `"detected"`. -/
structure Issue where
  id : String
  title : String
  content : String
  source : String
  urgency : String
  timestamp : Int
  mai_score : Option MAIScore
  status : String
deriving Repr, DecidableEq

/-- `Issue.__init__` with creation time `t` (the single wall-clock second in
which the object is constructed, feeding both `time.time()` and
`datetime.now()`). -/
def mkIssue (title content source urgency : String) (t : Int) : Issue :=
  { id := "issue_" ++ toString t
    title := title
    content := content
    source := source
    urgency := urgency
    timestamp := t
    mai_score := none
    status := "detected" }

/-- Boolean prefix test on character lists (empty pattern is a prefix of
everything). -/
def isPrefixCh : List Char → List Char → Bool
  | [], _ => true
  | _ :: _, [] => false
  | p :: ps, c :: cs => (p == c) && isPrefixCh ps cs

/-- Python's substring containment `pat in text`, on character lists. -/
def containsSub (pat : List Char) : List Char → Bool
  | [] => isPrefixCh pat []
  | c :: rest => isPrefixCh pat (c :: rest) || containsSub pat rest

/-- ASCII lowercasing of one character (Python `str.lower()` restricted to the
ASCII range, which covers every input this repository feeds it). -/
def lowerChar (c : Char) : Char :=
  if 'A' ≤ c ∧ c ≤ 'Z' then Char.ofNat (c.toNat + 32) else c

/-- Python `s.lower()`, as a character list. -/
def lowerStr (s : String) : List Char := s.data.map lowerChar

/-- The fixed keyword list of `MAIScoringAgent._fallback_mission_score`. -/
def fallbackKeywords : List String :=
  ["privacy", "security", "rights", "accessibility", "ethics"]

/-- Number of keywords of `fallbackKeywords` occurring (case-insensitively) in
`issue.title ++ " " ++ issue.content`; the `matches` count of the source. -/
def keywordHits (issue : Issue) : Nat :=
  let content_lower := lowerStr (issue.title ++ " " ++ issue.content)
  (fallbackKeywords.filter (fun keyword => containsSub keyword.data content_lower)).length

/-- `MAIScoringAgent._fallback_mission_score`. -/
def fallback_mission_score (issue : Issue) : Int :=
  min ((keywordHits issue : Int) * 3) 15

/-- `MAIScoringAgent._fallback_impact_score`:
`{'low': 5, 'medium': 10, 'high': 15}.get(issue.urgency, 10)`. -/
def fallback_impact_score (issue : Issue) : Int :=
  if issue.urgency = "low" then 5
  else if issue.urgency = "medium" then 10
  else if issue.urgency = "high" then 15
  else 10

/-- `MAIScoringAgent._fallback_risk_score`. -/
def fallback_risk_score (_issue : Issue) : Int := 8

/-- The clamp `min(max(score, 0), 15)` applied to every successfully parsed
collaborator reply. -/
def clamp015 (score : Int) : Int := min (max score 0) 15

/-- `MAIScoringAgent.score_mission_alignment`: clamp the collaborator's
integer on success, fall back to the keyword heuristic on failure. -/
def score_mission_alignment (resp : Option Int) (issue : Issue) : Int :=
  match resp with
  | some score => clamp015 score
  | none => fallback_mission_score issue

/-- `MAIScoringAgent.score_impact_growth`. -/
def score_impact_growth (resp : Option Int) (issue : Issue) : Int :=
  match resp with
  | some score => clamp015 score
  | none => fallback_impact_score issue

/-- `MAIScoringAgent.score_risk_evaluation`. -/
def score_risk_evaluation (resp : Option Int) (issue : Issue) : Int :=
  match resp with
  | some score => clamp015 score
  | none => fallback_risk_score issue

/-- One record of the scorer's `decision_history` list. -/
structure HistoryEntry where
  issue_id : String
  timestamp : Int
  mai_score : Int
  mission : Int
  impact : Int
  risk : Int
deriving Repr, DecidableEq

/-- `MAIScoringAgent.calculate_full_mai_score`: computes the three sub-scores
(each from its collaborator reply `respM`/`respI`/`respR` or its fallback),
builds the `MAIScore`, appends a record to `decision_history` (timestamped
`now`), and returns the score. The `Issue` is returned as the source leaves
it: the function only reads `issue` fields and never assigns to them. -/
def calculate_full_mai_score (history : List HistoryEntry) (issue : Issue)
    (respM respI respR : Option Int) (now : Int) :
    MAIScore × List HistoryEntry × Issue :=
  let mission_score := score_mission_alignment respM issue
  let impact_score := score_impact_growth respI issue
  let risk_score := score_risk_evaluation respR issue
  let mai := MAIScore.make mission_score impact_score risk_score
  (mai,
   history ++ [{ issue_id := issue.id, timestamp := now, mai_score := mai.total_score,
                 mission := mission_score, impact := impact_score, risk := risk_score }],
   issue)

/-- The hardcoded `scheduled_content` dict of
`ConflictResolutionAgent.detect_channel_conflict`. -/
structure ScheduledContent where
  ctype : String
  title : String
  scheduled_time : Int
  priority : String
deriving Repr, DecidableEq

/-- The conflict dict built by `detect_channel_conflict`. -/
structure Conflict where
  conflict_id : String
  new_issue : Issue
  conflicting_content : ScheduledContent
  severity : String
  detected_at : Int
deriving Repr, DecidableEq

/-- The `decision` dict of `execute_lightning_protocol`. -/
structure Decision where
  action : String
  rationale : String
deriving Repr, DecidableEq

/-- The resolution dict returned by `execute_lightning_protocol`. -/
structure Resolution where
  conflict_id : String
  resolution_time : Int
  decision : Decision
deriving Repr, DecidableEq

/-- `ConflictResolutionAgent._assess_conflict_severity`: +2 when the
scheduled content's priority is `"high"`, +3 when the issue's urgency is
`"high"`, label `"CRITICAL"` when the score reaches 4 and `"MODERATE"`
otherwise. -/
def assess_conflict_severity (issue : Issue) (content : ScheduledContent) : String :=
  let severity_score : Int := 0
  let severity_score := if content.priority = "high" then severity_score + 2 else severity_score
  let severity_score := if issue.urgency = "high" then severity_score + 3 else severity_score
  if 4 ≤ severity_score then "CRITICAL" else "MODERATE"

/-- `ConflictResolutionAgent.detect_channel_conflict`. The source reads the
clock four times; here `tA` is the `datetime.now()` used to place the
hardcoded scheduled item two hours (7200 s) ahead, `tB` the `datetime.now()`
subtracted to get `time_diff`, `tC` the `time.time()` stamped into the
conflict id, and `tD` the `datetime.now()` stored as `detected_at`. The
source compares `abs(diff_seconds)/3600 < 6`; in integer seconds that is
`|scheduled_time - tB| < 21600`. Returns `none` (Python `None`) when there is
no conflict. -/
def detect_channel_conflict (new_issue : Issue) (tA tB tC tD : Int) : Option Conflict :=
  let scheduled_content : ScheduledContent :=
    { ctype := "fundraising_email", title := "Year-end Giving Campaign",
      scheduled_time := tA + 7200, priority := "high" }
  let time_diff := |scheduled_content.scheduled_time - tB|
  if time_diff < 21600 then
    some { conflict_id := "conflict_" ++ toString tC
           new_issue := new_issue
           conflicting_content := scheduled_content
           severity := assess_conflict_severity new_issue scheduled_content
           detected_at := tD }
  else none

/-- `ConflictResolutionAgent.execute_lightning_protocol` (`now` is the
`datetime.now()` stored as `resolution_time`). -/
def execute_lightning_protocol (conflict : Conflict) (now : Int) : Resolution :=
  let decision : Decision :=
    if conflict.severity = "CRITICAL" then
      { action := "SEGMENT_AND_STAGGER"
        rationale := "High-priority issue requires immediate response with audience segmentation." }
    else
      { action := "DELAY_SECONDARY"
        rationale := "Delay scheduled content to avoid message collision." }
  { conflict_id := conflict.conflict_id, resolution_time := now, decision := decision }

/-- The routing dict returned by `DecisionSupportAgent.route_issue`. -/
structure RoutingDecision where
  issue_id : String
  mai_score : Int
  routing : String
  priority_level : String
  estimated_response_time : String
  decision_timestamp : Int
deriving Repr, DecidableEq

/-- `DecisionSupportAgent._determine_priority` (first matching rule wins). -/
def determine_priority (mai_score : MAIScore) (issue : Issue) : String :=
  if 35 ≤ mai_score.total_score ∧ issue.urgency = "high" then "P0 - CRITICAL"
  else if 25 ≤ mai_score.total_score ∨ issue.urgency = "high" then "P1 - HIGH"
  else if 15 ≤ mai_score.total_score then "P2 - MEDIUM"
  else "P3 - LOW"

/-- `DecisionSupportAgent._estimate_response_time`. -/
def estimate_response_time (routing urgency : String) : String :=
  if routing = "TIER_2_HUMAN_REVIEW" then
    if urgency = "high" then "2-4 hours" else "4-8 hours"
  else if routing = "ENHANCED_MONITORING" then "8-24 hours"
  else "24-48 hours"

/-- `DecisionSupportAgent.route_issue` (`now` is the `datetime.now()` stored
as `decision_timestamp`). -/
def route_issue (issue : Issue) (mai_score : MAIScore) (now : Int) : RoutingDecision :=
  let recommendation := mai_score.get_recommendation
  { issue_id := issue.id
    mai_score := mai_score.total_score
    routing := recommendation
    priority_level := determine_priority mai_score issue
    estimated_response_time := estimate_response_time recommendation issue.urgency
    decision_timestamp := now }

/-- The clamp keeps every collaborator-supplied integer in `[0, 15]`. -/
theorem clamp015_bounds (s : Int) : 0 ≤ clamp015 s ∧ clamp015 s ≤ 15 := by
  unfold clamp015
  exact ⟨le_min (le_max_right _ _) (by norm_num), min_le_right _ _⟩

/-- Mission-alignment sub-score bounds, on both the collaborator path and the
keyword fallback. -/
theorem score_mission_alignment_bounds (resp : Option Int) (issue : Issue) :
    0 ≤ score_mission_alignment resp issue ∧ score_mission_alignment resp issue ≤ 15 := by
  cases resp with
  | some s => exact clamp015_bounds s
  | none =>
    unfold score_mission_alignment fallback_mission_score
    exact ⟨le_min (mul_nonneg (Int.natCast_nonneg _) (by norm_num)) (by norm_num),
      min_le_right _ _⟩

/-- Impact sub-score bounds, on both paths. -/
theorem score_impact_growth_bounds (resp : Option Int) (issue : Issue) :
    0 ≤ score_impact_growth resp issue ∧ score_impact_growth resp issue ≤ 15 := by
  cases resp with
  | some s => exact clamp015_bounds s
  | none =>
    show 0 ≤ fallback_impact_score issue ∧ fallback_impact_score issue ≤ 15
    unfold fallback_impact_score
    split_ifs <;> omega

/-- Risk sub-score bounds, on both paths. -/
theorem score_risk_evaluation_bounds (resp : Option Int) (issue : Issue) :
    0 ≤ score_risk_evaluation resp issue ∧ score_risk_evaluation resp issue ≤ 15 := by
  cases resp with
  | some s => exact clamp015_bounds s
  | none =>
    show (0 : Int) ≤ 8 ∧ (8 : Int) ≤ 15
    omega

/-- C1: `get_recommendation` is a pure, monotonic step function of
`total_score`: it returns `"TIER_2_HUMAN_REVIEW"` iff `total_score ≥ 30`,
`"ENHANCED_MONITORING"` iff `15 ≤ total_score < 30`, and
`"DOCUMENTATION_ONLY"` iff `total_score < 15`; totals 0, 14, 15, 29, 30, 45
map to documentation only, documentation only, enhanced monitoring, enhanced
monitoring, tier-2 human review, tier-2 human review respectively. -/
theorem C1_get_recommendation_step_function :
    (∀ s : MAIScore,
      (s.get_recommendation = "TIER_2_HUMAN_REVIEW" ↔ 30 ≤ s.total_score) ∧
      (s.get_recommendation = "ENHANCED_MONITORING" ↔
        15 ≤ s.total_score ∧ s.total_score < 30) ∧
      (s.get_recommendation = "DOCUMENTATION_ONLY" ↔ s.total_score < 15)) ∧
    (MAIScore.make 0 0 0).get_recommendation = "DOCUMENTATION_ONLY" ∧
    (MAIScore.make 14 0 0).get_recommendation = "DOCUMENTATION_ONLY" ∧
    (MAIScore.make 15 0 0).get_recommendation = "ENHANCED_MONITORING" ∧
    (MAIScore.make 29 0 0).get_recommendation = "ENHANCED_MONITORING" ∧
    (MAIScore.make 30 0 0).get_recommendation = "TIER_2_HUMAN_REVIEW" ∧
    (MAIScore.make 45 0 0).get_recommendation = "TIER_2_HUMAN_REVIEW" := by
  refine ⟨?_, by decide, by decide, by decide, by decide, by decide, by decide⟩
  intro s
  unfold MAIScore.get_recommendation
  split_ifs with h1 h2
  · exact ⟨iff_of_true rfl h1,
      iff_of_false (by decide) (fun h => by omega),
      iff_of_false (by decide) (by omega)⟩
  · exact ⟨iff_of_false (by decide) h1,
      iff_of_true rfl ⟨h2, by omega⟩,
      iff_of_false (by decide) (by omega)⟩
  · exact ⟨iff_of_false (by decide) h1,
      iff_of_false (by decide) (fun h => h2 h.1),
      iff_of_true rfl (by omega)⟩

/-- C2: `_determine_priority` applies its rules in order with first match
winning: total ≥ 35 and urgency `"high"` gives `"P0 - CRITICAL"`; otherwise
total ≥ 25 or urgency `"high"` gives `"P1 - HIGH"`; otherwise total ≥ 15
gives `"P2 - MEDIUM"`; otherwise `"P3 - LOW"`; with the claim's four concrete
examples. (The spec's labels `P0-CRITICAL` … `P3-LOW` denote the source's
literal strings `'P0 - CRITICAL'` … `'P3 - LOW'`.) -/
theorem C2_determine_priority_rules :
    (∀ (s : MAIScore) (issue : Issue),
      (determine_priority s issue = "P0 - CRITICAL" ↔
        35 ≤ s.total_score ∧ issue.urgency = "high") ∧
      (determine_priority s issue = "P1 - HIGH" ↔
        ¬(35 ≤ s.total_score ∧ issue.urgency = "high") ∧
          (25 ≤ s.total_score ∨ issue.urgency = "high")) ∧
      (determine_priority s issue = "P2 - MEDIUM" ↔
        ¬(35 ≤ s.total_score ∧ issue.urgency = "high") ∧
          ¬(25 ≤ s.total_score ∨ issue.urgency = "high") ∧ 15 ≤ s.total_score) ∧
      (determine_priority s issue = "P3 - LOW" ↔
        ¬(35 ≤ s.total_score ∧ issue.urgency = "high") ∧
          ¬(25 ≤ s.total_score ∨ issue.urgency = "high") ∧ s.total_score < 15)) ∧
    determine_priority (MAIScore.make 36 0 0) (mkIssue "t" "c" "s" "high" 0) = "P0 - CRITICAL" ∧
    determine_priority (MAIScore.make 26 0 0) (mkIssue "t" "c" "s" "low" 0) = "P1 - HIGH" ∧
    determine_priority (MAIScore.make 20 0 0) (mkIssue "t" "c" "s" "low" 0) = "P2 - MEDIUM" ∧
    determine_priority (MAIScore.make 5 0 0) (mkIssue "t" "c" "s" "low" 0) = "P3 - LOW" := by
  refine ⟨?_, by decide, by decide, by decide, by decide⟩
  intro s issue
  unfold determine_priority
  split_ifs with h1 h2 h3
  · exact ⟨iff_of_true rfl h1,
      iff_of_false (by decide) (fun h => h.1 h1),
      iff_of_false (by decide) (fun h => h.1 h1),
      iff_of_false (by decide) (fun h => h.1 h1)⟩
  · exact ⟨iff_of_false (by decide) h1,
      iff_of_true rfl ⟨h1, h2⟩,
      iff_of_false (by decide) (fun h => h.2.1 h2),
      iff_of_false (by decide) (fun h => h.2.1 h2)⟩
  · exact ⟨iff_of_false (by decide) h1,
      iff_of_false (by decide) (fun h => h2 h.2),
      iff_of_true rfl ⟨h1, h2, h3⟩,
      iff_of_false (by decide) (fun h => absurd h3 (not_le.mpr h.2.2))⟩
  · exact ⟨iff_of_false (by decide) h1,
      iff_of_false (by decide) (fun h => h2 h.2),
      iff_of_false (by decide) (fun h => h3 h.2.2),
      iff_of_true rfl ⟨h1, h2, not_le.mp h3⟩⟩

/-- C3: every `MAIScore` produced by `calculate_full_mai_score` — whatever
the three collaborator replies are, including failures (`none`) and
out-of-range integers — has its three sub-scores in `[0, 15]`, its total
equal to their sum, and its total in `[0, 45]`. -/
theorem C3_score_invariants :
    ∀ (history : List HistoryEntry) (issue : Issue) (respM respI respR : Option Int)
      (now : Int),
      let mai := (calculate_full_mai_score history issue respM respI respR now).1
      (0 ≤ mai.mission_alignment ∧ mai.mission_alignment ≤ 15) ∧
      (0 ≤ mai.impact_growth ∧ mai.impact_growth ≤ 15) ∧
      (0 ≤ mai.risk_evaluation ∧ mai.risk_evaluation ≤ 15) ∧
      mai.total_score = mai.mission_alignment + mai.impact_growth + mai.risk_evaluation ∧
      (0 ≤ mai.total_score ∧ mai.total_score ≤ 45) := by
  intro history issue respM respI respR now
  have hm := score_mission_alignment_bounds respM issue
  have hi := score_impact_growth_bounds respI issue
  have hr := score_risk_evaluation_bounds respR issue
  exact ⟨hm, hi, hr, rfl, by
    show 0 ≤ score_mission_alignment respM issue + score_impact_growth respI issue +
        score_risk_evaluation respR issue ∧
      score_mission_alignment respM issue + score_impact_growth respI issue +
        score_risk_evaluation respR issue ≤ 45
    omega⟩

/-- C4: under collaborator failure the fallbacks are: mission alignment
`min(3 × keyword hits, 15)` over the fixed keyword set, impact 5/10/15 for
urgency low/medium/high, risk constantly 8; and in total outage an issue
whose text contains exactly the keywords "privacy" and "security" (2 hits)
with urgency `"high"` scores 6, 15, 8, total 29, recommendation
`"ENHANCED_MONITORING"` (the spec's "enhanced monitoring"). -/
theorem C4_fallback_scores_and_outage_scenario :
    (∀ issue : Issue,
      fallback_mission_score issue = min (3 * (keywordHits issue : Int)) 15) ∧
    (∀ title content source t,
      fallback_impact_score (mkIssue title content source "low" t) = 5) ∧
    (∀ title content source t,
      fallback_impact_score (mkIssue title content source "medium" t) = 10) ∧
    (∀ title content source t,
      fallback_impact_score (mkIssue title content source "high" t) = 15) ∧
    (∀ issue : Issue, fallback_risk_score issue = 8) ∧
    (let issue := mkIssue "Privacy concern" "New security flaw reported"
        "Security Research Lab" "high" 0
     let mai := (calculate_full_mai_score [] issue none none none 0).1
     keywordHits issue = 2 ∧
     mai.mission_alignment = 6 ∧ mai.impact_growth = 15 ∧ mai.risk_evaluation = 8 ∧
     mai.total_score = 29 ∧ mai.get_recommendation = "ENHANCED_MONITORING") := by
  refine ⟨?_, ?_, ?_, ?_, fun _ => rfl, by decide⟩
  · intro issue
    unfold fallback_mission_score
    rw [mul_comm]
  · intro title content source t; rfl
  · intro title content source t; rfl
  · intro title content source t; rfl

/-- C5: `detect_channel_conflict` reports a conflict iff the absolute
difference between the scheduled time (`tA + 7200`) and "now" (`tB`) is
strictly under 6 hours (21600 s); the test depends only on the absolute
value, so it is symmetric in the sign of the difference (differences of
+5h59m and −5h59m both trigger, exactly 6h00m does not); and the no-conflict
case is the explicit `none` result of a total function, never an
exception. -/
theorem C5_conflict_iff_within_six_hours :
    (∀ (issue : Issue) (tA tB tC tD : Int),
      ((detect_channel_conflict issue tA tB tC tD).isSome = true ↔
        |tA + 7200 - tB| < 21600) ∧
      (detect_channel_conflict issue tA tB tC tD = none ↔
        ¬ |tA + 7200 - tB| < 21600)) ∧
    (detect_channel_conflict (mkIssue "t" "c" "s" "low" 0) 14340 0 0 0).isSome = true ∧
    (detect_channel_conflict (mkIssue "t" "c" "s" "low" 0) (-28740) 0 0 0).isSome = true ∧
    detect_channel_conflict (mkIssue "t" "c" "s" "low" 0) 14400 0 0 0 = none := by
  refine ⟨?_, by decide, by decide, by decide⟩
  intro issue tA tB tC tD
  simp only [detect_channel_conflict]
  split_ifs with h
  · exact ⟨iff_of_true rfl h, iff_of_false (by simp) (fun hn => hn h)⟩
  · exact ⟨iff_of_false (by simp) h, iff_of_true rfl h⟩

/-- C6: the severity score is 2·[scheduled priority = "high"] +
3·[issue urgency = "high"], the label is `"CRITICAL"` iff that score reaches
4 (and `"MODERATE"` iff it does not), and `execute_lightning_protocol` picks
`"SEGMENT_AND_STAGGER"` with its fixed rationale iff the severity is
`"CRITICAL"`, and `"DELAY_SECONDARY"` with its fixed rationale otherwise. -/
theorem C6_severity_and_lightning_decision :
    (∀ (issue : Issue) (content : ScheduledContent),
      let score : Int := (if content.priority = "high" then 2 else 0) +
        (if issue.urgency = "high" then 3 else 0)
      (assess_conflict_severity issue content = "CRITICAL" ↔ 4 ≤ score) ∧
      (assess_conflict_severity issue content = "MODERATE" ↔ score < 4)) ∧
    (∀ (conflict : Conflict) (now : Int),
      ((execute_lightning_protocol conflict now).decision =
          ⟨"SEGMENT_AND_STAGGER",
           "High-priority issue requires immediate response with audience segmentation."⟩ ↔
        conflict.severity = "CRITICAL") ∧
      ((execute_lightning_protocol conflict now).decision =
          ⟨"DELAY_SECONDARY", "Delay scheduled content to avoid message collision."⟩ ↔
        ¬ conflict.severity = "CRITICAL")) := by
  constructor
  · intro issue content
    by_cases hp : content.priority = "high" <;>
      by_cases hu : issue.urgency = "high" <;>
        simp [assess_conflict_severity, hp, hu]
  · intro conflict now
    by_cases hc : conflict.severity = "CRITICAL" <;>
      simp [execute_lightning_protocol, hc]

/-- C7 fails as stated: `route_issue` stamps `datetime.now()` into the
`decision_timestamp` field, so two calls with identical `(issue, score)` made
at different clock readings return different `RoutingDecision`s. -/
theorem C7_route_issue_differs_across_calls :
    route_issue (mkIssue "t" "c" "s" "medium" 0) (MAIScore.make 5 5 5) 0 ≠
      route_issue (mkIssue "t" "c" "s" "medium" 0) (MAIScore.make 5 5 5) 1 := by decide

/-- C7 (amended): apart from the wall-clock `decision_timestamp` field,
`route_issue` is a pure function of the provided `(issue, score)`: every
other field of the decision agrees between two calls with identical inputs,
whatever the two call times are, and the timestamp is exactly the call-time
clock reading. -/
theorem C7_route_issue_pure_up_to_timestamp :
    ∀ (issue : Issue) (mai_score : MAIScore) (t1 t2 : Int),
      (route_issue issue mai_score t1).issue_id = (route_issue issue mai_score t2).issue_id ∧
      (route_issue issue mai_score t1).mai_score = (route_issue issue mai_score t2).mai_score ∧
      (route_issue issue mai_score t1).routing = (route_issue issue mai_score t2).routing ∧
      (route_issue issue mai_score t1).priority_level =
        (route_issue issue mai_score t2).priority_level ∧
      (route_issue issue mai_score t1).estimated_response_time =
        (route_issue issue mai_score t2).estimated_response_time ∧
      (route_issue issue mai_score t1).decision_timestamp = t1 :=
  fun _ _ _ _ => ⟨rfl, rfl, rfl, rfl, rfl, rfl⟩

/-- C8 fails on the code: `Issue.__init__` builds the id from
`int(time.time())`, which has whole-second resolution, so two distinct
issues created during the same wall-clock second (here second 1700000000,
as happens to the sample issues created in one loop) receive the same id
`"issue_1700000000"`. -/
theorem C8_issue_ids_collide_within_a_second :
    mkIssue "Issue A" "first content" "source1" "high" 1700000000 ≠
      mkIssue "Issue B" "second content" "source2" "low" 1700000000 ∧
    (mkIssue "Issue A" "first content" "source1" "high" 1700000000).id =
      (mkIssue "Issue B" "second content" "source2" "low" 1700000000).id := by decide

/-- C9: whenever the clock reading `tB` taken for the time-difference test is
at or after the reading `tA` that placed the hardcoded scheduled item two
hours ahead, and less than 8 hours after it (in the program the two readings
are microseconds apart), `detect_channel_conflict` returns a conflict — never
`none` — against the hardcoded high-priority item scheduled at `tA + 7200`,
and that conflict's severity is `"CRITICAL"` exactly when the issue's urgency
is `"high"`, `"MODERATE"` otherwise. -/
theorem C9_detect_always_conflicts :
    ∀ (issue : Issue) (tA tB tC tD : Int),
      tA ≤ tB → tB < tA + 28800 →
      ∃ c : Conflict, detect_channel_conflict issue tA tB tC tD = some c ∧
        c.conflicting_content.scheduled_time = tA + 7200 ∧
        c.conflicting_content.priority = "high" ∧
        (c.severity = "CRITICAL" ↔ issue.urgency = "high") ∧
        (c.severity = "MODERATE" ↔ ¬ issue.urgency = "high") := by
  intro issue tA tB tC tD h1 h2
  have hcond : |tA + 7200 - tB| < 21600 := by
    rw [abs_lt]; omega
  simp only [detect_channel_conflict]
  rw [if_pos hcond]
  refine ⟨_, rfl, rfl, rfl, ?_, ?_⟩ <;>
    by_cases hu : issue.urgency = "high" <;>
      simp [assess_conflict_severity, hu]

/-- Witness for C9 at a concrete input: both clock readings at second 0,
urgency `"high"`. -/
theorem C9_detect_always_conflicts_witness :
    ∃ c : Conflict,
      detect_channel_conflict (mkIssue "t" "c" "s" "high" 0) 0 0 0 0 = some c ∧
      c.conflicting_content.scheduled_time = 0 + 7200 ∧
      c.conflicting_content.priority = "high" ∧
      (c.severity = "CRITICAL" ↔ (mkIssue "t" "c" "s" "high" 0).urgency = "high") ∧
      (c.severity = "MODERATE" ↔ ¬ (mkIssue "t" "c" "s" "high" 0).urgency = "high") :=
  C9_detect_always_conflicts (mkIssue "t" "c" "s" "high" 0) 0 0 0 0
    (by decide) (by decide)

/-- C10: `calculate_full_mai_score` leaves the issue exactly as created —
in particular `mai_score` is still `None` and `status` still `"detected"` —
and its only effect besides returning the score is appending one record
(for this issue's id, carrying the computed total) to the scorer's decision
history. -/
theorem C10_scoring_leaves_issue_unchanged :
    ∀ (history : List HistoryEntry) (title content source urgency : String)
      (t : Int) (respM respI respR : Option Int) (now : Int),
      let issue := mkIssue title content source urgency t
      let result := calculate_full_mai_score history issue respM respI respR now
      result.2.2 = issue ∧
      result.2.2.mai_score = none ∧
      result.2.2.status = "detected" ∧
      ∃ entry : HistoryEntry, result.2.1 = history ++ [entry] ∧
        entry.issue_id = issue.id ∧ entry.mai_score = result.1.total_score :=
  fun _ _ _ _ _ _ _ _ _ _ => ⟨rfl, rfl, rfl, _, rfl, rfl, rfl⟩
